import Mathlib

/-!
Verification of the cordbun Discord client core: the REST rate-limit
controller (src/rest/bucket.ts, src/rest/client.ts) and the gateway
connection managers (src/gateway/client.ts class `Gateway`, and the
functional shard implementation `createShard` with its close-code tables).

Definitions are shallow embeddings of the TypeScript source: JavaScript
`Map`s become insertion-ordered association lists, `string | null` becomes
`Option String`, timestamps become explicit `Int` parameters, and the
concurrency of `BucketManager.acquire` becomes a small-step transition
system whose atomic steps are the code regions between `await` points.
-/

set_option autoImplicit false

namespace Cordbun

/-! ## REST data model (src/rest/types.ts) -/

/-- Stored rate limit bucket state (interface `RateLimitBucket`):
`limit`, `remaining`, and `reset` (epoch milliseconds). -/
structure RateLimitBucket where
  limit : Int
  remaining : Int
  reset : Int
deriving Repr, DecidableEq

/-- Rate limit data parsed from response headers (interface `RateLimitData`).
The TypeScript type of `bucket` is `string` (never null); the parser fills in
`""` when the header is absent. The optional `scope` tag only feeds
invalid-request accounting and is not modelled. -/
structure RateLimitData where
  limit : Int
  remaining : Int
  reset : Int
  resetAfter : Int
  bucket : String
  global : Bool
deriving Repr, DecidableEq

/-! ## Association lists modelling JavaScript `Map` -/

/-- Lookup in an insertion-ordered association list (JS `Map.get`). -/
def assocGet {α : Type} (l : List (String × α)) (k : String) : Option α :=
  (l.find? (fun p => p.1 == k)).map (fun p => p.2)

/-- Update in an insertion-ordered association list (JS `Map.set`):
replace in place when the key exists, append otherwise. -/
def assocSet {α : Type} (l : List (String × α)) (k : String) (v : α) :
    List (String × α) :=
  if (l.find? (fun p => p.1 == k)).isSome then
    l.map (fun p => if p.1 == k then (k, v) else p)
  else l ++ [(k, v)]

/-! ## BucketManager (src/rest/bucket.ts)

The mutable fields of the class become a record; `Date.now()` becomes an
explicit `now` argument. -/

/-- The `BucketManager` state: `globalReset`, the `buckets` map, and the
`bucketKeys` alias map from route keys to server bucket ids. -/
structure BucketManager where
  globalReset : Int
  buckets : List (String × RateLimitBucket)
  bucketKeys : List (String × String)
deriving Repr, DecidableEq

/-- `BucketManager.get`: resolve the route key through the alias table
(falling back to the key itself) and look up the bucket. -/
def BucketManager.get (m : BucketManager) (key : String) :
    Option RateLimitBucket :=
  let bucketKey := (assocGet m.bucketKeys key).getD key
  assocGet m.buckets bucketKey

/-- `BucketManager.update`: alias the route key to `data.bucket` when that
string is truthy (non-empty), then store the bucket state under
`data.bucket ?? key`. Since the TypeScript type of `data.bucket` is
`string`, the nullish fallback never fires and the store key is always
`data.bucket` itself, including when it is the empty string. -/
def BucketManager.update (m : BucketManager) (key : String)
    (data : RateLimitData) : BucketManager :=
  let bucketKeys :=
    if data.bucket ≠ "" then assocSet m.bucketKeys key data.bucket
    else m.bucketKeys
  let bucketKey := data.bucket
  { m with
    bucketKeys := bucketKeys
    buckets := assocSet m.buckets bucketKey
      ⟨data.limit, data.remaining, data.reset * 1000⟩ }

/-- `BucketManager.getDelay` at time `now`: the global reset wins, else a
bucket with no remaining quota and a future reset imposes its wait, else 0. -/
def BucketManager.getDelay (m : BucketManager) (key : String) (now : Int) :
    Int :=
  if m.globalReset > now then m.globalReset - now
  else
    match m.get key with
    | none => 0
    | some bucket =>
      if bucket.remaining ≤ 0 ∧ bucket.reset > now then bucket.reset - now
      else 0

/-- `BucketManager.sweep` at time `now`: delete every bucket whose `reset`
is strictly in the past (the code deletes when `bucket.reset < now`, so we
keep those with `now ≤ reset`), then prune alias entries whose target bucket
no longer exists. Returns the new state and the number of buckets removed. -/
def BucketManager.sweep (m : BucketManager) (now : Int) :
    BucketManager × Nat :=
  let buckets := m.buckets.filter (fun p => decide (now ≤ p.2.reset))
  let swept := m.buckets.length - buckets.length
  let bucketKeys := m.bucketKeys.filter (fun p => (assocGet buckets p.2).isSome)
  ({ m with buckets := buckets, bucketKeys := bucketKeys }, swept)

/-! ## Route keys (`getRouteKey`, src/rest/bucket.ts lines 176-189)

The regular expressions are embedded as scanners over `List Char`. -/

/-- Match a literal character sequence at the head of the input, returning
the rest on success. -/
def matchLit : List Char → List Char → Option (List Char)
  | [], cs => some cs
  | _, [] => none
  | l :: ls, c :: cs => if c = l then matchLit ls cs else none

/-- Try the regex `\/(channels|guilds|webhooks)\/(\d+)` anchored at the head
of the input; on success return the captured digit run (group 2). -/
def tryMajorAt (cs : List Char) : Option (List Char) :=
  let tryOne : List Char → Option (List Char) := fun lit =>
    match matchLit lit cs with
    | none => none
    | some rest =>
      let ds := rest.takeWhile Char.isDigit
      if ds.isEmpty then none else some ds
  match tryOne "/channels/".toList with
  | some d => some d
  | none =>
    match tryOne "/guilds/".toList with
    | some d => some d
    | none => tryOne "/webhooks/".toList

/-- Leftmost match of `\/(channels|guilds|webhooks)\/(\d+)` over the route,
as JavaScript `String.match` finds it. -/
def findMajor : List Char → Option (List Char)
  | [] => none
  | c :: rest =>
    match tryMajorAt (c :: rest) with
    | some d => some d
    | none => findMajor rest

/-- Try the regex `\/webhooks\/(\d+)\/([^/]+)` anchored at the head of the
input; on success return the captured id digits and token segment. -/
def tryWebhookAt (cs : List Char) : Option (List Char × List Char) :=
  match matchLit "/webhooks/".toList cs with
  | none => none
  | some rest =>
    let ds := rest.takeWhile Char.isDigit
    if ds.isEmpty then none
    else
      match rest.dropWhile Char.isDigit with
      | '/' :: rest2 =>
        let tok := rest2.takeWhile (fun c => c != '/')
        if tok.isEmpty then none else some (ds, tok)
      | _ => none

/-- Leftmost match of the webhook id+token regex over the route. -/
def findWebhook : List Char → Option (List Char × List Char)
  | [] => none
  | c :: rest =>
    match tryWebhookAt (c :: rest) with
    | some r => some r
    | none => findWebhook rest

/-- Worker for `replaceIds`, structurally recursive on a fuel bound so that
it reduces inside the kernel; the fuel is always at least the length of the
remaining input, so the `0` case is never reached from `replaceIds`. -/
def replaceIdsFuel : Nat → List Char → List Char
  | 0, cs => cs
  | _ + 1, [] => []
  | fuel + 1, '/' :: r :: rest =>
    if r.isDigit then
      '/' :: ':' :: 'i' :: 'd' ::
        replaceIdsFuel fuel ((r :: rest).dropWhile Char.isDigit)
    else '/' :: replaceIdsFuel fuel (r :: rest)
  | fuel + 1, c :: rest => c :: replaceIdsFuel fuel rest

/-- The global replacement `route.replace(/\/\d+/g, "/:id")`: every `/`
followed by at least one digit is rewritten to `/:id`, consuming the whole
digit run. -/
def replaceIds (cs : List Char) : List Char := replaceIdsFuel cs.length cs

/-- `getRouteKey(method, route)`: the webhook id+token pair wins as major
parameter, else the first channel/guild/webhook id, else the empty string;
the key is `method : collapsedRoute : majorId`. -/
def getRouteKey (method route : List Char) : List Char :=
  let majorId : List Char :=
    match findWebhook route with
    | some (id, tok) => id ++ ':' :: tok
    | none => (findMajor route).getD []
  method ++ ':' :: (replaceIds route ++ ':' :: majorId)

/-! ## Rate limit header parsing (`REST.parseRateLimitHeaders`,
src/rest/client.ts lines 482-497)

Headers are modelled as the optional raw string values of the seven
`X-RateLimit-*` headers the method reads (`Headers.get` returns the string
or null). -/

/-- Raw header values consumed by `parseRateLimitHeaders`. -/
structure RateHeaders where
  limit : Option String
  remaining : Option String
  reset : Option String
  resetAfter : Option String
  bucket : Option String
  globalHdr : Option String
deriving Repr, DecidableEq

/-- Models the JavaScript `Number()` conversion for the strings these
headers carry: nonnegative decimal integer strings map to their value, and
the empty string maps to 0 (as in JavaScript). Other strings (where
JavaScript would produce NaN or a fraction) are out of scope and map to 0. -/
def jsNumber (s : String) : Int :=
  match s.toNat? with
  | some n => Int.ofNat n
  | none => 0

/-- `REST.parseRateLimitHeaders`: returns null when the limit header is
falsy (absent or empty), else builds a `RateLimitData` whose `bucket` falls
back to the empty string and whose `global` flag compares the header to
the string true. -/
def parseRateLimitHeaders (h : RateHeaders) : Option RateLimitData :=
  match h.limit with
  | none => none
  | some l =>
    if l = "" then none
    else
      some
        { limit := jsNumber l
          remaining := jsNumber (h.remaining.getD "0")
          reset := jsNumber (h.reset.getD "0")
          resetAfter := jsNumber (h.resetAfter.getD "0")
          bucket := h.bucket.getD ""
          global := h.globalHdr == some "true" }

/-! ## Request pipeline retry loop (`REST.request`, src/rest/client.ts
lines 158-261)

One call to `request` is modelled by a script listing what each successive
network attempt produces. The catch block of `request` maps each failure to
either a recursive call with `retryCount + 1` (after the corresponding
sleep) or a surfaced error once `retryCount < this.config.retries` fails. -/

/-- What a single network attempt produces, as classified by `request`:
a successful response, a 429 (which `handleRateLimit` turns into a
`RateLimitError` carrying the retry-after seconds), a 5xx `RESTError`,
an abort timeout, or a non-JSON `CloudflareError`. -/
inductive RestAttempt where
  | ok
  | rateLimited (retryAfter : Nat)
  | serverError
  | timeout
  | cloudflare
deriving Repr, DecidableEq

/-- The outcome surfaced to the caller of `request`. -/
inductive RestOutcome where
  | success
  | rateLimitError (retryAfter : Nat)
  | serverError
  | timeoutError
  | cloudflareError
deriving Repr, DecidableEq

/-- The retry loop of `REST.request` with retry budget `retries`
(`config.retries`), current `retryCount`, and the attempt script. Returns
the surfaced outcome (`none` if the script is shorter than the attempts
made) and the list of sleeps (milliseconds) performed between attempts:
`retryAfter * 1000` for a 429, `1000 * (retryCount + 1)` for 5xx and
Cloudflare errors, none for a timeout. -/
def runRequest (retries : Nat) : Nat → List RestAttempt → Option RestOutcome × List Nat
  | _, [] => (none, [])
  | retryCount, attempt :: script =>
    match attempt with
    | .ok => (some .success, [])
    | .rateLimited ra =>
      if retryCount < retries then
        let r := runRequest retries (retryCount + 1) script
        (r.1, ra * 1000 :: r.2)
      else (some (.rateLimitError ra), [])
    | .serverError =>
      if retryCount < retries then
        let r := runRequest retries (retryCount + 1) script
        (r.1, 1000 * (retryCount + 1) :: r.2)
      else (some .serverError, [])
    | .timeout =>
      if retryCount < retries then runRequest retries (retryCount + 1) script
      else (some .timeoutError, [])
    | .cloudflare =>
      if retryCount < retries then
        let r := runRequest retries (retryCount + 1) script
        (r.1, 1000 * (retryCount + 1) :: r.2)
      else (some .cloudflareError, [])

/-! ## Concurrent admission (`BucketManager.acquire`, src/rest/bucket.ts
lines 76-103)

`acquire` is a per-bucket-key mutual-exclusion section: callers loop on
`locks.has(bucketKey)`, install their own lock promise, compute `getDelay`,
sleep it out if positive, decrement `remaining` when positive, and release.
JavaScript runs the code between `await` points atomically, so the system
below has one atomic step per such region, for callers of one bucket key
during the window in which the stored bucket has a future `reset` and no
`update` delivers fresh server data. Caller identity is irrelevant to the
claims, so the state tracks how many callers are in each phase:

* `pending`: before the lock is acquired (looping on `locks.has`);
* `critNoWait`: holding the lock, having computed `getDelay = 0` because
  `remaining` was positive — will decrement and release;
* `critWaiting`: holding the lock, having computed a positive delay because
  `remaining` was 0 — sleeps until the reset, i.e. past the window;
* `doneNoWait`: completed without waiting. -/

/-- Phase counts for concurrent `acquire` callers on one bucket key,
together with the bucket field `remaining` and the lock bit (`locks.has`). -/
structure AcquireState where
  remaining : Nat
  lockHeld : Bool
  pending : Nat
  critNoWait : Nat
  critWaiting : Nat
  doneNoWait : Nat
deriving Repr, DecidableEq

/-- Atomic steps of concurrent `acquire` callers. `enterQuota` and
`enterEmpty` are the lock acquisition plus `getDelay` (no `await` separates
the `locks.has` check from `locks.set`, nor `locks.set` from `getDelay`);
`leave` is the decrement plus the `finally` release, available only to a
caller whose delay was 0 (a waiting caller sleeps past the window). -/
inductive AcquireStep : AcquireState → AcquireState → Prop where
  | enterQuota (s : AcquireState) :
      s.lockHeld = false → 0 < s.pending → 0 < s.remaining →
      AcquireStep s
        { s with lockHeld := true, pending := s.pending - 1,
                 critNoWait := s.critNoWait + 1 }
  | enterEmpty (s : AcquireState) :
      s.lockHeld = false → 0 < s.pending → s.remaining = 0 →
      AcquireStep s
        { s with lockHeld := true, pending := s.pending - 1,
                 critWaiting := s.critWaiting + 1 }
  | leave (s : AcquireState) :
      s.lockHeld = true → 0 < s.critNoWait →
      AcquireStep s
        { s with lockHeld := false, remaining := s.remaining - 1,
                 critNoWait := s.critNoWait - 1,
                 doneNoWait := s.doneNoWait + 1 }

/-- Initial state: the stored bucket has `remaining = R`, the lock is free,
and `callers` concurrent `acquire` calls are pending. -/
def AcquireState.init (R callers : Nat) : AcquireState :=
  ⟨R, false, callers, 0, 0, 0⟩

/-- States reachable by any interleaving of `acquire` steps from the
initial state. -/
def AcquireReachable (R callers : Nat) (s : AcquireState) : Prop :=
  Relation.ReflTransGen AcquireStep (AcquireState.init R callers) s

/-- The inductive invariant of the acquire system used in the admission
safety proof: at most one caller is inside the mutual-exclusion section and
exactly then is the lock held; completed no-wait admissions balance the
decrements of `remaining`; a caller admitted with zero delay saw a positive
`remaining`, which nobody else can consume while the lock is held. -/
def AcquireInv (R : Nat) (s : AcquireState) : Prop :=
  s.critNoWait + s.critWaiting ≤ 1 ∧
  (s.lockHeld = true ↔ s.critNoWait + s.critWaiting = 1) ∧
  s.doneNoWait + s.remaining = R ∧
  (0 < s.critNoWait → 0 < s.remaining)

/-! ## Gateway class (src/gateway/client.ts) -/

/-- The `GatewayStatus` enum from src/gateway/types.ts. -/
inductive GatewayStatus where
  | idle
  | connecting
  | identifying
  | resuming
  | ready
  | disconnected
deriving Repr, DecidableEq

/-- `NON_RECONNECTABLE_CLOSE_CODES` from src/gateway/client.ts: close codes
after which the class-based `Gateway` never reconnects
(AuthenticationFailed, InvalidShard, ShardingRequired, InvalidApiVersion,
InvalidIntents, DisallowedIntents). -/
def NON_RECONNECTABLE_CLOSE_CODES : List Nat :=
  [4004, 4010, 4011, 4012, 4013, 4014]

/-- `RESUMABLE_CLOSE_CODES` from the functional gateway types module:
UnknownError, UnknownOpcode, DecodeError, NotAuthenticated,
AlreadyAuthenticated, InvalidSeq, RateLimited, SessionTimedOut. -/
def RESUMABLE_CLOSE_CODES : List Nat :=
  [4000, 4001, 4002, 4003, 4005, 4007, 4008, 4009]

/-- `NON_RESUMABLE_CLOSE_CODES` from the functional gateway types module:
the same six codes as `NON_RECONNECTABLE_CLOSE_CODES`. -/
def NON_RESUMABLE_CLOSE_CODES : List Nat :=
  [4004, 4010, 4011, 4012, 4013, 4014]

/-- Session-related fields of the `Gateway` class. -/
structure GatewayRec where
  status : GatewayStatus
  sessionId : Option String
  resumeGatewayUrl : Option String
  sequence : Option Int
deriving Repr, DecidableEq

/-- JavaScript truthiness of a `string | null` value: null and the empty
string are falsy. -/
def jsTruthyStr : Option String → Bool
  | none => false
  | some s => s != ""

/-- `Gateway.identify`: sets the Identifying status (the payload send has no
effect on the modelled fields). -/
def Gateway.identify (g : GatewayRec) : GatewayRec :=
  { g with status := .identifying }

/-- `Gateway.resume`: falls back to `identify` when `this.sessionId` is
falsy or `this.sequence` is null, else sets the Resuming status and sends
the Resume payload. -/
def Gateway.resume (g : GatewayRec) : GatewayRec :=
  if jsTruthyStr g.sessionId = false ∨ g.sequence = none then
    Gateway.identify g
  else { g with status := .resuming }

/-- `Gateway.handleHello`: after starting the heartbeat, resumes when
`this.sessionId` is truthy and `this.sequence` is non-null, else
identifies. -/
def Gateway.handleHello (g : GatewayRec) : GatewayRec :=
  if jsTruthyStr g.sessionId = true ∧ g.sequence ≠ none then
    Gateway.resume g
  else Gateway.identify g

/-- `Gateway.disconnect`: cleanup, close, Idle status, and clearing of
`sessionId`, `resumeGatewayUrl`, and `sequence`. -/
def Gateway.disconnect (g : GatewayRec) : GatewayRec :=
  { g with status := .idle, sessionId := none, resumeGatewayUrl := none,
           sequence := none }

/-- `Gateway.scheduleReconnect` with `maxReconnectAttempts = 5`: when the
attempt counter has reached the cap, no reconnect is scheduled and an error
is emitted; otherwise a reconnect is scheduled after
`min(1000 * 2 ^ reconnectAttempts, 30000)` milliseconds (the counter is
incremented after the delay is computed). -/
def Gateway.scheduleReconnect (reconnectAttempts : Nat) : Option Nat × Bool :=
  if reconnectAttempts ≥ 5 then (none, true)
  else (some (min (1000 * 2 ^ reconnectAttempts) 30000), false)

/-- `Gateway.handleClose`: a non-reconnectable code yields terminal Idle
with an error and no reconnect; any other code yields Disconnected and
`scheduleReconnect`. Returns (status, scheduled reconnect delay, whether an
error was emitted). -/
def Gateway.handleClose (code reconnectAttempts : Nat) :
    GatewayStatus × Option Nat × Bool :=
  if code ∈ NON_RECONNECTABLE_CLOSE_CODES then (.idle, none, true)
  else
    let r := Gateway.scheduleReconnect reconnectAttempts
    (.disconnected, r.1, r.2)

/-! ## Functional shard (`createShard` in the unnamed gateway shard module)

The shard keeps a `ShardState` record with a string status. Its message and
close handlers are modelled as a step function over the session-related
fields; timers, sockets, and the emitted events do not affect these
fields. -/

/-- The `ShardStatus` string union of the functional gateway. -/
inductive ShardStatus where
  | disconnected
  | connecting
  | identifying
  | resuming
  | ready
  | reconnecting
deriving Repr, DecidableEq

/-- Session-related fields of the `ShardState` record of the functional shard. -/
structure ShardStateRec where
  status : ShardStatus
  sessionId : Option String
  resumeUrl : Option String
  sequence : Option Int
deriving Repr, DecidableEq

/-- Events driving the session fields of the shard: `connect(isResume)`, the
Hello opcode, dispatches (READY, RESUMED, or any other event carrying a
sequence number), InvalidSession, a socket close with its code, and an
explicit `disconnect()` call. -/
inductive ShardEvent where
  | connect (isResume : Bool)
  | hello
  | dispatchReady (sessionId resumeUrl : String) (seq : Option Int)
  | dispatchResumed (seq : Option Int)
  | dispatchOther (seq : Option Int)
  | invalidSession (resumable : Bool)
  | close (code : Nat)
  | disconnectShard
deriving Repr, DecidableEq

/-- The `handleMessage` preamble: a non-null `payload.s` overwrites the
stored sequence before the opcode is dispatched. -/
def shardSeqUpdate (s : ShardStateRec) (seq : Option Int) : ShardStateRec :=
  match seq with
  | some v => { s with sequence := some v }
  | none => s

/-- The shard function `identify`: sets the identifying status. -/
def shardIdentify (s : ShardStateRec) : ShardStateRec :=
  { s with status := .identifying }

/-- The shard function `resume`: falls back to `identify` when `state.sessionId`
is falsy or `state.sequence` is null, else sets the resuming status and
sends the Resume payload. -/
def shardResume (s : ShardStateRec) : ShardStateRec :=
  if jsTruthyStr s.sessionId = false ∨ s.sequence = none then
    shardIdentify s
  else { s with status := .resuming }

/-- One shard transition per event, following `createShard`:
`connect` sets connecting or reconnecting; Hello resumes when
`state.sessionId` is truthy and `state.sequence` non-null, else identifies;
READY stores the session id and resume URL and sets ready; RESUMED sets
ready; InvalidSession with `resumable = false` clears the session id and
sequence (identify is scheduled later); `handleClose` always sets
disconnected and clears session id, sequence, and resume URL exactly for
codes in `NON_RESUMABLE_CLOSE_CODES`; the shard function `disconnect` sets
disconnected and leaves the session fields in place. -/
def shardStep (s : ShardStateRec) : ShardEvent → ShardStateRec
  | .connect isResume =>
    { s with status := if isResume then .reconnecting else .connecting }
  | .hello =>
    if jsTruthyStr s.sessionId = true ∧ s.sequence ≠ none then shardResume s
    else shardIdentify s
  | .dispatchReady sid url seq =>
    let s1 := shardSeqUpdate s seq
    { s1 with sessionId := some sid, resumeUrl := some url, status := .ready }
  | .dispatchResumed seq =>
    let s1 := shardSeqUpdate s seq
    { s1 with status := .ready }
  | .dispatchOther seq => shardSeqUpdate s seq
  | .invalidSession resumable =>
    if resumable then s
    else { s with sessionId := none, sequence := none }
  | .close code =>
    if code ∈ NON_RESUMABLE_CLOSE_CODES then
      { s with status := .disconnected, sessionId := none, sequence := none,
               resumeUrl := none }
    else { s with status := .disconnected }
  | .disconnectShard => { s with status := .disconnected }

/-- The initial shard state (`status: "disconnected"`, all session fields
null). -/
def shardInit : ShardStateRec :=
  ⟨.disconnected, none, none, none⟩

/-- Run a shard event trace from the initial state. -/
def runShard (tr : List ShardEvent) : ShardStateRec :=
  tr.foldl shardStep shardInit

/-- The reconnect scheduling of the shard inside `handleClose`: nothing for a
non-resumable code; for a code in the resumable set, code 1006, or any code
below 4000, and only while `reconnectAttempts < maxReconnectAttempts = 5`,
a reconnect is scheduled after `min(1000 * 2 ^ (reconnectAttempts + 1),
30000)` milliseconds (the counter is incremented before the delay is
computed); any other code schedules nothing. -/
def shardCloseReconnectDelay (code reconnectAttempts : Nat) : Option Nat :=
  if code ∈ NON_RESUMABLE_CLOSE_CODES then none
  else if code ∈ RESUMABLE_CLOSE_CODES ∨ code = 1006 ∨ code < 4000 then
    if reconnectAttempts < 5 then
      some (min (1000 * 2 ^ (reconnectAttempts + 1)) 30000)
    else none
  else none

/-! ## Shard orchestrator (`spawnShards` in the functional gateway client)

`spawnShards` groups shard ids into a JavaScript array indexed by
`id % maxConcurrency`, then connects each group concurrently in array
order (skipping holes) and sleeps 5000 ms after every group except the
last. -/

/-- The spawn waves of `spawnShards`: one wave per residue class of
`id % maxConcurrency` that is inhabited, each wave listing its shard ids in
input order. -/
def spawnWaves (shardIds : List Nat) (maxConcurrency : Nat) :
    List (List Nat) :=
  ((List.range maxConcurrency).map
      (fun k => shardIds.filter (fun id => id % maxConcurrency == k))).filter
    (fun b => !b.isEmpty)

/-- The sleeps `spawnShards` performs: 5000 ms after every wave except the
last. -/
def spawnSleeps (shardIds : List Nat) (maxConcurrency : Nat) : List Nat :=
  List.replicate ((spawnWaves shardIds maxConcurrency).length - 1) 5000

/-! ## Helper lemmas -/

/-- Filtering preserves the association-list binding of a key whose first
entry satisfies the filter. -/
theorem assocGet_filter {α : Type} {l : List (String × α)}
    {p : String × α → Bool} {k : String} {v : α}
    (h : assocGet l k = some v) (hp : p (k, v) = true) :
    assocGet (l.filter p) k = some v := by
  induction l with
  | nil => simp [assocGet] at h
  | cons hd tl ih =>
    rcases hd with ⟨k1, v1⟩
    by_cases hk : (k1 == k) = true
    · have hk2 : k1 = k := by simpa using hk
      subst hk2
      have hv : v1 = v := by simpa [assocGet, List.find?] using h
      subst hv
      simp [List.filter, hp, assocGet, List.find?]
    · have h2 : assocGet tl k = some v := by
        simpa [assocGet, List.find?, hk] using h
      by_cases hph : p (k1, v1) = true
      · simpa [List.filter, hph, assocGet, List.find?, hk] using ih h2
      · simpa [List.filter, hph] using ih h2

/-- Filtering twice with the same predicate is the same as filtering
once. -/
theorem filter_idempotent {α : Type} (p : α → Bool) (l : List α) :
    (l.filter p).filter p = l.filter p := by
  induction l with
  | nil => rfl
  | cons hd tl ih =>
    by_cases hp : p hd = true
    · simp [List.filter, hp, ih]
    · simp [List.filter, hp, ih]

/-- Looking up a key in the in-place-replaced association list returns the
new value when the key was present. -/
theorem assocGet_map_set_self {α : Type} (l : List (String × α))
    (k : String) (v : α)
    (hmem : (l.find? (fun p => p.1 == k)).isSome = true) :
    assocGet (l.map (fun p => if p.1 == k then (k, v) else p)) k = some v := by
  induction l with
  | nil => simp [List.find?] at hmem
  | cons hd tl ih =>
    rcases hd with ⟨k1, v1⟩
    by_cases hk : (k1 == k) = true
    · simp [assocGet, List.find?, hk]
    · have hmem2 : (tl.find? (fun p => p.1 == k)).isSome = true := by
        simpa [List.find?, hk] using hmem
      simpa [assocGet, List.find?, hk] using ih hmem2

/-- In-place replacement of one key leaves lookups of other keys
unchanged. -/
theorem assocGet_map_set_ne {α : Type} (l : List (String × α))
    (k k2 : String) (v : α) (hne : k2 ≠ k) :
    assocGet (l.map (fun p => if p.1 == k then (k, v) else p)) k2 =
      assocGet l k2 := by
  induction l with
  | nil => rfl
  | cons hd tl ih =>
    rcases hd with ⟨k1, v1⟩
    by_cases hk : (k1 == k) = true
    · have hk2 : k1 = k := by simpa using hk
      subst hk2
      have hne2 : ¬ ((k1 == k2) = true) := by
        simp
        exact fun h => hne h.symm
      simpa [assocGet, List.find?, hk, hne2] using ih
    · by_cases hk2 : (k1 == k2) = true
      · simp [assocGet, List.find?, hk, hk2]
      · simpa [assocGet, List.find?, hk, hk2] using ih

/-- Appending a binding for a fresh key leaves lookups of other keys
unchanged. -/
theorem assocGet_append_single {α : Type} (l : List (String × α))
    (k k2 : String) (v : α) (hne : k2 ≠ k) :
    assocGet (l ++ [(k, v)]) k2 = assocGet l k2 := by
  induction l with
  | nil =>
    have hne2 : ¬ ((k == k2) = true) := by
      simp
      exact fun h => hne h.symm
    simp [assocGet, List.find?, hne2]
  | cons hd tl ih =>
    rcases hd with ⟨k1, v1⟩
    by_cases hk2 : (k1 == k2) = true
    · simp [assocGet, List.find?, hk2]
    · simpa [assocGet, List.find?, hk2] using ih

/-- Setting a key in an association list makes lookup of that key return
the new value. -/
theorem assocGet_assocSet_self {α : Type} (l : List (String × α))
    (k : String) (v : α) : assocGet (assocSet l k v) k = some v := by
  unfold assocSet
  by_cases hmem : (l.find? (fun p => p.1 == k)).isSome = true
  · rw [if_pos hmem]
    exact assocGet_map_set_self l k v hmem
  · rw [if_neg hmem]
    induction l with
    | nil => simp [assocGet, List.find?]
    | cons hd tl ih =>
      rcases hd with ⟨k1, v1⟩
      by_cases hk : (k1 == k) = true
      · simp [List.find?, hk] at hmem
      · have hmem2 : ¬ ((tl.find? (fun p => p.1 == k)).isSome = true) := by
          simpa [List.find?, hk] using hmem
        simpa [assocGet, List.find?, hk] using ih hmem2

/-- Setting one key leaves lookups of other keys unchanged. -/
theorem assocGet_assocSet_ne {α : Type} (l : List (String × α))
    (k k2 : String) (v : α) (hne : k2 ≠ k) :
    assocGet (assocSet l k v) k2 = assocGet l k2 := by
  unfold assocSet
  by_cases hmem : (l.find? (fun p => p.1 == k)).isSome = true
  · rw [if_pos hmem]
    exact assocGet_map_set_ne l k k2 v hne
  · rw [if_neg hmem]
    exact assocGet_append_single l k k2 v hne

/-! ## Acquire system invariant -/

/-- The invariant holds in the initial acquire state. -/
theorem acquireInv_init (R callers : Nat) :
    AcquireInv R (AcquireState.init R callers) := by
  simp [AcquireInv, AcquireState.init]

/-- Every step of the acquire system preserves the invariant. -/
theorem acquireInv_step {R : Nat} {s t : AcquireState}
    (h : AcquireInv R s) (hs : AcquireStep s t) : AcquireInv R t := by
  obtain ⟨h1, h2, h3, h4⟩ := h
  cases hs with
  | enterQuota hl hp hr =>
    rw [hl] at h2
    simp at h2
    refine ⟨by simp; omega, by simp; omega, by simpa using h3, ?_⟩
    intro _
    simpa using hr
  | enterEmpty hl hp hr =>
    rw [hl] at h2
    simp at h2
    refine ⟨by simp; omega, by simp; omega, by simpa using h3, ?_⟩
    intro hc
    simp at hc
    have := h4 hc
    omega
  | leave hl hc =>
    rw [hl] at h2
    simp at h2
    have hr : 0 < s.remaining := h4 hc
    refine ⟨by simp; omega, by simp; omega, by simp; omega, ?_⟩
    intro hc2
    simp at hc2
    omega

/-- The invariant holds in every reachable acquire state. -/
theorem acquireInv_reachable {R callers : Nat} {s : AcquireState}
    (h : AcquireReachable R callers s) : AcquireInv R s := by
  induction h with
  | refl => exact acquireInv_init R callers
  | tail _ hstep ih => exact acquireInv_step ih hstep

/-- C2: for a bucket stored with `remaining = R` whose reset is still in
the future and which receives no fresh server update, any interleaving of
concurrent `BucketManager.acquire` calls on route keys resolving to that
bucket admits at most `R` callers without a wait until the reset
(`doneNoWait + critNoWait ≤ R`), and the per-bucket lock keeps concurrent
acquires mutually exclusive (at most one caller is inside the critical
section at any reachable state). -/
theorem acquire_admission_safety (R callers : Nat) (s : AcquireState)
    (h : AcquireReachable R callers s) :
    s.critNoWait + s.critWaiting ≤ 1 ∧ s.doneNoWait + s.critNoWait ≤ R := by
  obtain ⟨h1, h2, h3, h4⟩ := acquireInv_reachable h
  refine ⟨h1, ?_⟩
  rcases Nat.eq_zero_or_pos s.critNoWait with h0 | h0
  · omega
  · have := h4 h0
    omega

/-- Witness for C2: the state after one caller acquires the lock with
quota available and then decrements and releases, starting from
`remaining = 1` with two concurrent callers, is reachable and satisfies
both bounds. -/
theorem acquire_admission_safety_witness :
    ((⟨0, false, 1, 0, 0, 1⟩ : AcquireState).critNoWait +
        (⟨0, false, 1, 0, 0, 1⟩ : AcquireState).critWaiting ≤ 1) ∧
    ((⟨0, false, 1, 0, 0, 1⟩ : AcquireState).doneNoWait +
        (⟨0, false, 1, 0, 0, 1⟩ : AcquireState).critNoWait ≤ 1) :=
  acquire_admission_safety 1 2 _
    (Relation.ReflTransGen.tail
      (Relation.ReflTransGen.single
        (AcquireStep.enterQuota (AcquireState.init 1 2) rfl (by decide) (by decide)))
      (AcquireStep.leave ⟨1, true, 1, 1, 0, 0⟩ rfl (by decide)))

/-! ## C1: rate-limited requests and the retry budget -/

/-- Helper for C1: running the retry loop against a script of `k`
rate-limited attempts followed by a success, starting from an arbitrary
retry counter below the budget. -/
theorem runRequest_rateLimited_script (retries : Nat) :
    ∀ (k retryCount : Nat), retryCount ≤ retries →
      runRequest retries retryCount
          (List.replicate k (RestAttempt.rateLimited 1) ++ [RestAttempt.ok]) =
        if k ≤ retries - retryCount then
          (some RestOutcome.success, List.replicate k 1000)
        else
          (some (RestOutcome.rateLimitError 1),
            List.replicate (retries - retryCount) 1000) := by
  intro k
  induction k with
  | zero =>
    intro rc hrc
    simp [runRequest]
  | succ n ih =>
    intro rc hrc
    simp only [List.replicate_succ, List.cons_append, runRequest]
    by_cases hlt : rc < retries
    · simp only [if_pos hlt, List.append_eq]
      rw [ih (rc + 1) hlt]
      by_cases hn : n ≤ retries - (rc + 1)
      · rw [if_pos hn, if_pos (by omega)]
      · rw [if_neg hn, if_neg (by omega)]
        have he : retries - rc = (retries - (rc + 1)) + 1 := by omega
        rw [he, List.replicate_succ]
    · have hrc2 : rc = retries := by omega
      rw [if_neg hlt, if_neg (by omega)]
      simp [hrc2]

/-- C1 counterexample: with the default retry budget
(`config.retries = 3`), a request whose every attempt is answered 429
sleeps the server-indicated delay three times — each rate-limit retry is
counted against the budget — and then surfaces the `RateLimitError` to the
caller, so a rate-limit response alone does cause a failure to surface. -/
theorem request_rate_limit_surfaces :
    runRequest 3 0
        [RestAttempt.rateLimited 1, RestAttempt.rateLimited 1,
          RestAttempt.rateLimited 1, RestAttempt.rateLimited 1] =
      (some (RestOutcome.rateLimitError 1), [1000, 1000, 1000]) := by
  decide

/-- C1 (amended): a 429 response is retried after the server-indicated
delay (`retryAfter * 1000` milliseconds), but each such retry is counted
against `maxRetries`: a script of `k` rate-limited attempts followed by a
success succeeds exactly when `k ≤ maxRetries`, sleeping the indicated
delay `min k maxRetries` times, and surfaces a `RateLimitError` once the
budget is exhausted. -/
theorem request_rate_limit_retries_counted (retries k : Nat) :
    runRequest retries 0
        (List.replicate k (RestAttempt.rateLimited 1) ++ [RestAttempt.ok]) =
      if k ≤ retries then (some RestOutcome.success, List.replicate k 1000)
      else
        (some (RestOutcome.rateLimitError 1),
          List.replicate retries 1000) := by
  simpa using runRequest_rateLimited_script retries k 0 (Nat.zero_le retries)

/-- Witness for C1 at `retries = 3`, `k = 5`. -/
theorem request_rate_limit_retries_counted_witness :
    runRequest 3 0
        (List.replicate 5 (RestAttempt.rateLimited 1) ++ [RestAttempt.ok]) =
      (some (RestOutcome.rateLimitError 1), List.replicate 3 1000) := by
  have h := request_rate_limit_retries_counted 3 5
  norm_num at h
  exact h

/-! ## C3: close code classification -/

/-- C3 counterexample: close code 4006 is outside the non-resumable set,
yet with zero prior reconnect attempts the functional shard schedules no
reconnect at all (4006 is neither in the resumable set, nor 1006, nor
below 4000); the shard is simply left disconnected. -/
theorem close_code_4006_no_reconnect :
    (4006 ∉ NON_RESUMABLE_CLOSE_CODES) ∧
    shardCloseReconnectDelay 4006 0 = none ∧
    (shardStep ⟨ShardStatus.ready, some "s", some "u", some 5⟩
        (ShardEvent.close 4006)).status = ShardStatus.disconnected := by
  decide

/-- C3 (amended): every close code in the non-resumable set is terminal in
both implementations — Idle with an error and no reconnect in the class
`Gateway`, disconnected with the session cleared and no reconnect in the
functional shard. In the class `Gateway` every other code schedules a
reconnect while the attempt counter is below the cap; in the functional
shard a reconnect is scheduled exactly for codes in the resumable set,
code 1006, or codes below 4000, and only below the attempt cap — other
codes at or above 4000 schedule nothing. -/
theorem close_classification (code attempts : Nat) :
    (code ∈ NON_RESUMABLE_CLOSE_CODES →
      Gateway.handleClose code attempts = (GatewayStatus.idle, none, true) ∧
      shardCloseReconnectDelay code attempts = none ∧
      ∀ s : ShardStateRec,
        (shardStep s (ShardEvent.close code)).status =
            ShardStatus.disconnected ∧
          (shardStep s (ShardEvent.close code)).sessionId = none) ∧
    (code ∉ NON_RESUMABLE_CLOSE_CODES → attempts < 5 →
      Gateway.handleClose code attempts =
        (GatewayStatus.disconnected,
          some (min (1000 * 2 ^ attempts) 30000), false)) ∧
    (shardCloseReconnectDelay code attempts ≠ none ↔
      ((code ∈ RESUMABLE_CLOSE_CODES ∨ code = 1006 ∨ code < 4000) ∧
        code ∉ NON_RESUMABLE_CLOSE_CODES ∧ attempts < 5)) := by
  refine ⟨?_, ?_, ?_⟩
  · intro hmem
    have hmem2 : code ∈ NON_RECONNECTABLE_CLOSE_CODES := hmem
    refine ⟨?_, ?_, ?_⟩
    · unfold Gateway.handleClose
      rw [if_pos hmem2]
    · unfold shardCloseReconnectDelay
      rw [if_pos hmem]
    · intro s
      constructor
      · simp [shardStep, hmem]
      · simp [shardStep, hmem]
  · intro hmem hlt
    have hmem2 : code ∉ NON_RECONNECTABLE_CLOSE_CODES := hmem
    unfold Gateway.handleClose Gateway.scheduleReconnect
    rw [if_neg hmem2, if_neg (by omega)]
  · unfold shardCloseReconnectDelay
    split_ifs with hm hr hatt
    · simp_all
    · simp_all
    · simp_all
    · simp_all

/-- Witness for C3 at codes 4004 (non-resumable) and 4001 (resumable),
with zero prior attempts. -/
theorem close_classification_witness :
    Gateway.handleClose 4004 0 = (GatewayStatus.idle, none, true) ∧
    Gateway.handleClose 4001 0 =
      (GatewayStatus.disconnected, some 1000, false) ∧
    shardCloseReconnectDelay 4001 0 ≠ none := by
  refine ⟨((close_classification 4004 0).1 (by decide)).1, ?_, ?_⟩
  · have h := (close_classification 4001 0).2.1 (by decide) (by decide)
    simpa using h
  · exact (close_classification 4001 0).2.2.mpr (by decide)

/-! ## C4: resume versus identify on Hello -/

/-- C4 counterexample: a shard whose `sessionId` is the non-null empty
string and whose `sequence` is non-null sends Identify, not Resume — both
implementations test JavaScript truthiness of the session id, and the
empty string is falsy. -/
theorem hello_empty_session_identifies :
    ((some "" : Option String) ≠ none) ∧ ((some 0 : Option Int) ≠ none) ∧
    (Gateway.handleHello
        ⟨GatewayStatus.connecting, some "", none, some 0⟩).status =
      GatewayStatus.identifying ∧
    (shardStep ⟨ShardStatus.connecting, some "", none, some 0⟩
        ShardEvent.hello).status = ShardStatus.identifying := by
  decide

/-- C4 (amended): on Hello, a shard whose `sessionId` is non-null and
non-empty (truthy) and whose `sequence` is non-null enters Resuming and
sends Resume; a shard whose `sessionId` is falsy (null or empty) or whose
`sequence` is null enters Identifying and sends Identify — in both the
class `Gateway` and the functional shard, on every Hello. -/
theorem hello_resume_or_identify (g : GatewayRec) (s : ShardStateRec) :
    ((jsTruthyStr g.sessionId = true ∧ g.sequence ≠ none) →
      Gateway.handleHello g = { g with status := GatewayStatus.resuming }) ∧
    ((jsTruthyStr g.sessionId = false ∨ g.sequence = none) →
      Gateway.handleHello g =
        { g with status := GatewayStatus.identifying }) ∧
    ((jsTruthyStr s.sessionId = true ∧ s.sequence ≠ none) →
      shardStep s ShardEvent.hello =
        { s with status := ShardStatus.resuming }) ∧
    ((jsTruthyStr s.sessionId = false ∨ s.sequence = none) →
      shardStep s ShardEvent.hello =
        { s with status := ShardStatus.identifying }) := by
  refine ⟨?_, ?_, ?_, ?_⟩
  · rintro ⟨h1, h2⟩
    simp [Gateway.handleHello, Gateway.resume, h1, h2]
  · intro h
    have hno : ¬ (jsTruthyStr g.sessionId = true ∧ g.sequence ≠ none) := by
      rcases h with h | h
      · simp [h]
      · simp [h]
    simp [Gateway.handleHello, hno, Gateway.identify]
  · rintro ⟨h1, h2⟩
    simp [shardStep, shardResume, h1, h2]
  · intro h
    have hno : ¬ (jsTruthyStr s.sessionId = true ∧ s.sequence ≠ none) := by
      rcases h with h | h
      · simp [h]
      · simp [h]
    simp [shardStep, hno, shardIdentify]

/-- Witness for C4: a truthy session id with a sequence resumes; a null
session id identifies. -/
theorem hello_resume_or_identify_witness :
    Gateway.handleHello ⟨GatewayStatus.connecting, some "abc", none, some 3⟩ =
      { (⟨GatewayStatus.connecting, some "abc", none, some 3⟩ : GatewayRec)
          with status := GatewayStatus.resuming } ∧
    Gateway.handleHello ⟨GatewayStatus.connecting, none, none, some 3⟩ =
      { (⟨GatewayStatus.connecting, none, none, some 3⟩ : GatewayRec)
          with status := GatewayStatus.identifying } ∧
    shardStep ⟨ShardStatus.connecting, some "abc", none, some 3⟩
        ShardEvent.hello =
      { (⟨ShardStatus.connecting, some "abc", none, some 3⟩ : ShardStateRec)
          with status := ShardStatus.resuming } :=
  ⟨(hello_resume_or_identify
        ⟨GatewayStatus.connecting, some "abc", none, some 3⟩
        ⟨ShardStatus.connecting, some "abc", none, some 3⟩).1 (by decide),
    (hello_resume_or_identify
        ⟨GatewayStatus.connecting, none, none, some 3⟩
        ⟨ShardStatus.connecting, none, none, some 3⟩).2.1 (by decide),
    (hello_resume_or_identify
        ⟨GatewayStatus.connecting, some "abc", none, some 3⟩
        ⟨ShardStatus.connecting, some "abc", none, some 3⟩).2.2.1 (by decide)⟩

/-! ## C5: spawn waves -/

/-- C5 counterexample: with `shardCount = 8` and `maxConcurrency = 2`,
`spawnShards` produces 2 waves of 4 shards (the residue classes modulo 2),
not 4 waves of 2. -/
theorem spawnShards_wave_count :
    spawnWaves (List.range 8) 2 = [[0, 2, 4, 6], [1, 3, 5, 7]] ∧
    (spawnWaves (List.range 8) 2).length = 2 ∧
    ¬ ((spawnWaves (List.range 8) 2).length = 4 ∧
      ∀ w ∈ spawnWaves (List.range 8) 2, w.length = 2) := by
  decide

/-- C5 (amended): with `shardCount = 8` and `maxConcurrency = 2` the
orchestrator partitions shard ids by `id mod 2` into 2 buckets and brings
them online in 2 waves of 4 shards each — ids 0, 2, 4, 6 concurrently,
then ids 1, 3, 5, 7 — with a single 5000 ms sleep separating the two
consecutive waves. -/
theorem spawnShards_waves_8_2 :
    spawnWaves (List.range 8) 2 = [[0, 2, 4, 6], [1, 3, 5, 7]] ∧
    (∀ w ∈ spawnWaves (List.range 8) 2, w.length = 4) ∧
    (∀ w ∈ spawnWaves (List.range 8) 2, ∀ i ∈ w, ∀ j ∈ w, i % 2 = j % 2) ∧
    spawnSleeps (List.range 8) 2 = [5000] := by
  decide

/-! ## C6: reconnect backoff -/

/-- C6 counterexample: the functional shard increments its attempt counter
before computing the backoff, so its first reconnect after a resumable
close (code 4000) is scheduled after 2000 ms, not
`min(1000 * 2 ^ 0, 30000) = 1000` ms as the claim states. -/
theorem shard_backoff_first_delay :
    shardCloseReconnectDelay 4000 0 = some 2000 ∧
    min (1000 * 2 ^ 0) 30000 = 1000 ∧
    Gateway.scheduleReconnect 0 = (some 1000, false) := by
  decide

/-- C6 (amended): in the class `Gateway` the `n`-th reconnect attempt is
scheduled after `min(1000 * 2 ^ n, 30000)` ms and exceeding the cap of 5
attempts schedules nothing and surfaces an error; in the functional shard
the `n`-th reconnect is scheduled after `min(1000 * 2 ^ (n + 1), 30000)`
ms and exceeding the cap silently schedules nothing (no error is
surfaced). -/
theorem reconnect_backoff (n : Nat) :
    (n < 5 → Gateway.scheduleReconnect n =
      (some (min (1000 * 2 ^ n) 30000), false)) ∧
    (5 ≤ n → Gateway.scheduleReconnect n = (none, true)) ∧
    (n < 5 → shardCloseReconnectDelay 4000 n =
      some (min (1000 * 2 ^ (n + 1)) 30000)) ∧
    (5 ≤ n → shardCloseReconnectDelay 4000 n = none) := by
  refine ⟨?_, ?_, ?_, ?_⟩
  · intro h
    unfold Gateway.scheduleReconnect
    rw [if_neg (by omega)]
  · intro h
    unfold Gateway.scheduleReconnect
    rw [if_pos (by omega)]
  · intro h
    unfold shardCloseReconnectDelay
    rw [if_neg (by decide), if_pos (by decide), if_pos h]
  · intro h
    unfold shardCloseReconnectDelay
    rw [if_neg (by decide), if_pos (by decide), if_neg (by omega)]

/-- Witness for C6 at `n = 2` and `n = 5`. -/
theorem reconnect_backoff_witness :
    Gateway.scheduleReconnect 2 = (some 4000, false) ∧
    Gateway.scheduleReconnect 5 = (none, true) ∧
    shardCloseReconnectDelay 4000 2 = some 8000 := by
  refine ⟨?_, (reconnect_backoff 5).2.1 (by decide), ?_⟩
  · have h := (reconnect_backoff 2).1 (by decide)
    simpa using h
  · have h := (reconnect_backoff 2).2.2.1 (by decide)
    simpa using h

/-! ## C7: session field lifetime -/

/-- C7 counterexample: after connect, Hello, READY, and a resumable close
(code 4000), the functional shard is in the disconnected status with
`sessionId` and `sequence` still non-null — so the fields are non-null
outside Ready and Resuming; and after an explicit shard `disconnect()`
(a non-resumable termination) the session fields are likewise retained,
not cleared. -/
theorem session_fields_outside_ready :
    (runShard [ShardEvent.connect false, ShardEvent.hello,
        ShardEvent.dispatchReady "sid" "wss" (some 1),
        ShardEvent.close 4000]).sessionId = some "sid" ∧
    (runShard [ShardEvent.connect false, ShardEvent.hello,
        ShardEvent.dispatchReady "sid" "wss" (some 1),
        ShardEvent.close 4000]).sequence = some 1 ∧
    (runShard [ShardEvent.connect false, ShardEvent.hello,
        ShardEvent.dispatchReady "sid" "wss" (some 1),
        ShardEvent.close 4000]).status = ShardStatus.disconnected ∧
    (4000 ∈ RESUMABLE_CLOSE_CODES) ∧
    (runShard [ShardEvent.connect false, ShardEvent.hello,
        ShardEvent.dispatchReady "sid" "wss" (some 1),
        ShardEvent.disconnectShard]).sessionId = some "sid" ∧
    (runShard [ShardEvent.connect false, ShardEvent.hello,
        ShardEvent.dispatchReady "sid" "wss" (some 1),
        ShardEvent.disconnectShard]).status = ShardStatus.disconnected := by
  decide

/-- C7 (amended): `sessionId` and `sequence` are cleared on every close
with a non-resumable code and on a non-resumable InvalidSession, and the
class `Gateway` additionally clears both on explicit `disconnect()` (with
terminal Idle); they are retained across resumable closes and across the
functional shard `disconnect`, so they may be non-null in the
disconnected, connecting, and reconnecting statuses while a resume is
pending. -/
theorem session_cleared_on_non_resumable (s : ShardStateRec)
    (g : GatewayRec) (code : Nat) (h : code ∈ NON_RESUMABLE_CLOSE_CODES) :
    (shardStep s (ShardEvent.close code)).sessionId = none ∧
    (shardStep s (ShardEvent.close code)).sequence = none ∧
    (shardStep s (ShardEvent.close code)).resumeUrl = none ∧
    (shardStep s (ShardEvent.invalidSession false)).sessionId = none ∧
    (shardStep s (ShardEvent.invalidSession false)).sequence = none ∧
    (Gateway.disconnect g).sessionId = none ∧
    (Gateway.disconnect g).sequence = none ∧
    (Gateway.disconnect g).status = GatewayStatus.idle := by
  refine ⟨?_, ?_, ?_, ?_, ?_, rfl, rfl, rfl⟩ <;> simp [shardStep, h]

/-- Witness for C7 at code 4004 from a ready state. -/
theorem session_cleared_on_non_resumable_witness :
    (shardStep ⟨ShardStatus.ready, some "sid", some "wss", some 9⟩
        (ShardEvent.close 4004)).sessionId = none ∧
    (shardStep ⟨ShardStatus.ready, some "sid", some "wss", some 9⟩
        (ShardEvent.close 4004)).sequence = none ∧
    (shardStep ⟨ShardStatus.ready, some "sid", some "wss", some 9⟩
        (ShardEvent.close 4004)).resumeUrl = none ∧
    (shardStep ⟨ShardStatus.ready, some "sid", some "wss", some 9⟩
        (ShardEvent.invalidSession false)).sessionId = none ∧
    (shardStep ⟨ShardStatus.ready, some "sid", some "wss", some 9⟩
        (ShardEvent.invalidSession false)).sequence = none ∧
    (Gateway.disconnect
        ⟨GatewayStatus.ready, some "sid", some "wss", some 9⟩).sessionId =
      none ∧
    (Gateway.disconnect
        ⟨GatewayStatus.ready, some "sid", some "wss", some 9⟩).sequence =
      none ∧
    (Gateway.disconnect
        ⟨GatewayStatus.ready, some "sid", some "wss", some 9⟩).status =
      GatewayStatus.idle :=
  session_cleared_on_non_resumable
    ⟨ShardStatus.ready, some "sid", some "wss", some 9⟩
    ⟨GatewayStatus.ready, some "sid", some "wss", some 9⟩ 4004 (by decide)

/-! ## C8: route key derivation -/

/-- C8: `getRouteKey` sends `DELETE /channels/123/messages/456` and
`DELETE /channels/123/messages/789` to the same route key — the numeric
segments collapse to `:id` and the major parameter 123 is kept — while
`DELETE /channels/999/messages/456` gets a different key, sharing the
collapsed template but carrying major parameter 999. -/
theorem route_key_shares_bucket :
    getRouteKey "DELETE".toList "/channels/123/messages/456".toList =
      getRouteKey "DELETE".toList "/channels/123/messages/789".toList ∧
    getRouteKey "DELETE".toList "/channels/123/messages/456".toList ≠
      getRouteKey "DELETE".toList "/channels/999/messages/456".toList ∧
    getRouteKey "DELETE".toList "/channels/123/messages/456".toList =
      "DELETE:/channels/:id/messages/:id:123".toList ∧
    getRouteKey "DELETE".toList "/channels/999/messages/456".toList =
      "DELETE:/channels/:id/messages/:id:999".toList := by
  decide

/-! ## C9: sweep safety and idempotence -/

/-- C9: `BucketManager.sweep` never removes a bucket whose reset time is
still in the future, and it is idempotent: immediately sweeping a second
time (at the same instant) removes no buckets and no alias entries and
returns 0. -/
theorem sweep_future_safe_idempotent (m : BucketManager) (now : Int) :
    (∀ k b, assocGet m.buckets k = some b → now < b.reset →
      assocGet ((m.sweep now).1.buckets) k = some b) ∧
    (m.sweep now).1.sweep now = ((m.sweep now).1, 0) := by
  constructor
  · intro k b hb hfut
    have hp : (fun p : String × RateLimitBucket =>
        decide (now ≤ p.2.reset)) (k, b) = true := by
      simp
      omega
    exact assocGet_filter hb hp
  · cases m with
    | mk g bs ks =>
      simp only [BucketManager.sweep, filter_idempotent, Nat.sub_self]

/-- Witness for C9: a manager holding one live bucket (reset 2000) and one
expired bucket (reset 500), swept at time 1000. -/
theorem sweep_future_safe_idempotent_witness :
    assocGet ((BucketManager.sweep
        ⟨0, [("b1", ⟨5, 3, 2000⟩), ("b2", ⟨5, 0, 500⟩)],
          [("r1", "b1"), ("r2", "b2")]⟩ 1000).1.buckets) "b1" =
      some ⟨5, 3, 2000⟩ ∧
    (BucketManager.sweep
        ⟨0, [("b1", ⟨5, 3, 2000⟩), ("b2", ⟨5, 0, 500⟩)],
          [("r1", "b1"), ("r2", "b2")]⟩ 1000).1.sweep 1000 =
      ((BucketManager.sweep
        ⟨0, [("b1", ⟨5, 3, 2000⟩), ("b2", ⟨5, 0, 500⟩)],
          [("r1", "b1"), ("r2", "b2")]⟩ 1000).1, 0) :=
  ⟨(sweep_future_safe_idempotent
        ⟨0, [("b1", ⟨5, 3, 2000⟩), ("b2", ⟨5, 0, 500⟩)],
          [("r1", "b1"), ("r2", "b2")]⟩ 1000).1 "b1" ⟨5, 3, 2000⟩
      (by decide) (by decide),
    (sweep_future_safe_idempotent
        ⟨0, [("b1", ⟨5, 3, 2000⟩), ("b2", ⟨5, 0, 500⟩)],
          [("r1", "b1"), ("r2", "b2")]⟩ 1000).2⟩

/-! ## C10: responses without a bucket header -/

/-- C10: a response carrying a (truthy) limit header but no bucket header
parses to a record with `bucket = ""`; `update` with that record creates
no alias entry and stores the bucket state under the empty-string key
rather than under the route key, so for a route key with no prior alias
and no prior bucket a subsequent `get` returns none and, absent a global
limit, the observed limit never delays admissions for that route. -/
theorem update_empty_bucket_header (h : RateHeaders) (m : BucketManager)
    (key l : String) (hl : h.limit = some l) (hne : l ≠ "")
    (hb : h.bucket = none) (halias : assocGet m.bucketKeys key = none)
    (hkey : key ≠ "") (hbuck : assocGet m.buckets key = none) :
    ∃ d, parseRateLimitHeaders h = some d ∧ d.bucket = "" ∧
      (m.update key d).bucketKeys = m.bucketKeys ∧
      assocGet (m.update key d).buckets "" =
        some ⟨d.limit, d.remaining, d.reset * 1000⟩ ∧
      (m.update key d).get key = none ∧
      ∀ now, m.globalReset ≤ now → (m.update key d).getDelay key now = 0 := by
  refine ⟨{ limit := jsNumber l
            remaining := jsNumber (h.remaining.getD "0")
            reset := jsNumber (h.reset.getD "0")
            resetAfter := jsNumber (h.resetAfter.getD "0")
            bucket := ""
            global := h.globalHdr == some "true" }, ?_, rfl, ?_, ?_, ?_, ?_⟩
  · simp [parseRateLimitHeaders, hl, hne, hb]
  · simp [BucketManager.update]
  · simpa [BucketManager.update] using
      assocGet_assocSet_self m.buckets ""
        ⟨jsNumber l, jsNumber (h.remaining.getD "0"),
          jsNumber (h.reset.getD "0") * 1000⟩
  · have hkeys : (BucketManager.update m key
        { limit := jsNumber l
          remaining := jsNumber (h.remaining.getD "0")
          reset := jsNumber (h.reset.getD "0")
          resetAfter := jsNumber (h.resetAfter.getD "0")
          bucket := ""
          global := h.globalHdr == some "true" }).bucketKeys =
        m.bucketKeys := by
      simp [BucketManager.update]
    unfold BucketManager.get
    rw [hkeys, halias]
    simp only [Option.getD_none]
    rw [show (BucketManager.update m key
        { limit := jsNumber l
          remaining := jsNumber (h.remaining.getD "0")
          reset := jsNumber (h.reset.getD "0")
          resetAfter := jsNumber (h.resetAfter.getD "0")
          bucket := ""
          global := h.globalHdr == some "true" }).buckets =
      assocSet m.buckets ""
        ⟨jsNumber l, jsNumber (h.remaining.getD "0"),
          jsNumber (h.reset.getD "0") * 1000⟩ from by
        simp [BucketManager.update]]
    rw [assocGet_assocSet_ne m.buckets "" key _ hkey]
    exact hbuck
  · intro now hnow
    have hget : (BucketManager.update m key
        { limit := jsNumber l
          remaining := jsNumber (h.remaining.getD "0")
          reset := jsNumber (h.reset.getD "0")
          resetAfter := jsNumber (h.resetAfter.getD "0")
          bucket := ""
          global := h.globalHdr == some "true" }).get key = none := by
      have hkeys : (BucketManager.update m key
          { limit := jsNumber l
            remaining := jsNumber (h.remaining.getD "0")
            reset := jsNumber (h.reset.getD "0")
            resetAfter := jsNumber (h.resetAfter.getD "0")
            bucket := ""
            global := h.globalHdr == some "true" }).bucketKeys =
          m.bucketKeys := by
        simp [BucketManager.update]
      unfold BucketManager.get
      rw [hkeys, halias]
      simp only [Option.getD_none]
      rw [show (BucketManager.update m key
          { limit := jsNumber l
            remaining := jsNumber (h.remaining.getD "0")
            reset := jsNumber (h.reset.getD "0")
            resetAfter := jsNumber (h.resetAfter.getD "0")
            bucket := ""
            global := h.globalHdr == some "true" }).buckets =
        assocSet m.buckets ""
          ⟨jsNumber l, jsNumber (h.remaining.getD "0"),
            jsNumber (h.reset.getD "0") * 1000⟩ from by
          simp [BucketManager.update]]
      rw [assocGet_assocSet_ne m.buckets "" key _ hkey]
      exact hbuck
    unfold BucketManager.getDelay
    have hglobal : (BucketManager.update m key
        { limit := jsNumber l
          remaining := jsNumber (h.remaining.getD "0")
          reset := jsNumber (h.reset.getD "0")
          resetAfter := jsNumber (h.resetAfter.getD "0")
          bucket := ""
          global := h.globalHdr == some "true" }).globalReset =
        m.globalReset := by
      simp [BucketManager.update]
    rw [hglobal, if_neg (by omega), hget]

/-- Witness for C10: headers with limit 5 and no bucket header, applied to
an empty manager under a concrete route key. -/
theorem update_empty_bucket_header_witness :
    ∃ d, parseRateLimitHeaders
        ⟨some "5", some "4", some "100", some "60", none, none⟩ = some d ∧
      d.bucket = "" ∧
      (BucketManager.update ⟨0, [], []⟩ "GET:/users/:id:" d).bucketKeys =
        (⟨0, [], []⟩ : BucketManager).bucketKeys ∧
      assocGet (BucketManager.update ⟨0, [], []⟩ "GET:/users/:id:" d).buckets
          "" = some ⟨d.limit, d.remaining, d.reset * 1000⟩ ∧
      (BucketManager.update ⟨0, [], []⟩ "GET:/users/:id:" d).get
          "GET:/users/:id:" = none ∧
      ∀ now, (⟨0, [], []⟩ : BucketManager).globalReset ≤ now →
        (BucketManager.update ⟨0, [], []⟩ "GET:/users/:id:" d).getDelay
          "GET:/users/:id:" now = 0 :=
  update_empty_bucket_header
    ⟨some "5", some "4", some "100", some "60", none, none⟩
    ⟨0, [], []⟩ "GET:/users/:id:" "5" rfl (by decide) rfl rfl (by decide) rfl

end Cordbun
